import Mathlib

/-
Verification of the Debezium-CDC-to-Cypher transformation module
`memgraph/query_modules/ivy_debezium.py`.

The module is a pure function of each inbound Kafka message: it decodes a
Debezium envelope (JSON bytes/text or a pre-decoded value), extracts the
effective row (`after` if it is a dict, else `before`), validates required
fields, flattens the row's `data` blob into a property map and renders a
Cypher MERGE statement with escaped literal values.

The shallow embedding below mirrors the Python source function by function.
Python/JSON values are modelled by the closed tagged variant `JVal`
(floating-point numbers are not exercised by any claim and are omitted; the
numeric case carries `Int`).  Python `dict`s of string keys are modelled as
insertion-ordered association lists (`PyDict`); the external `json` codec's
`loads` is passed in as an explicit parameter (`loads : String → Option JVal`,
`none` modelling a raised `JSONDecodeError`) while `dumps` is modelled
concretely by `jsonDumps` (compact separators, as called by the source).
A raised Python exception is modelled by `Except.error`; `Except.ok none`
models the builders returning `None` (message skipped).
-/

namespace Ivy

/-- Closed variant of the JSON / Python value domain handled by the module:
null, booleans, numbers, text, lists, and string-keyed mappings. -/
inductive JVal where
  | null
  | bool (b : Bool)
  | int (n : Int)
  | str (s : String)
  | arr (xs : List JVal)
  | obj (kvs : List (String × JVal))
  deriving Repr

/-- A Python `dict` with string keys: an insertion-ordered association list.
Dictionaries produced by the JSON codec have pairwise-distinct keys. -/
abbrev PyDict : Type := List (String × JVal)

/-- Exceptions that the Python module can raise (and does not catch). -/
inductive PyErr where
  | typeError
  | attributeError
  deriving Repr, DecidableEq

/-- The backslash character (code 92), kept as a named constant. -/
def bsChar : Char := Char.ofNat 92

/-- The single-quote character (code 39), kept as a named constant. -/
def sqChar : Char := Char.ofNat 39

/-- `dict.get k` / `k in dict`: first binding of `k` (keys are unique). -/
def dlookup : PyDict → String → Option JVal
  | [], _ => none
  | (k1, v1) :: t, k => if k1 = k then some v1 else dlookup t k

/-- `d[k] = v` on a Python dict: overwrite the (unique) existing binding in
place, keeping its position, else append the new binding at the end. -/
def dset : PyDict → String → JVal → PyDict
  | [], k, v => [(k, v)]
  | (k1, v1) :: t, k, v => if k1 = k then (k, v) :: t else (k1, v1) :: dset t k v

/-- Python truthiness (`bool(v)`) on the modelled value domain. -/
def jTruthy : JVal → Bool
  | .null => false
  | .bool b => b
  | .int n => !(n == 0)
  | .str s => !s.toList.isEmpty
  | .arr xs => !xs.isEmpty
  | .obj kvs => !kvs.isEmpty

/-- Truthiness of a `dict.get` result (`None` for a missing key is falsy). -/
def truthyO : Option JVal → Bool
  | none => false
  | some v => jTruthy v

/-- JSON string quoting used by `json.dumps`: ASCII-printable characters pass
through, quote and backslash are escaped, the common control characters use
their short escapes and all remaining characters use `\uXXXX` (matching
`ensure_ascii=True`; astral characters, which no claim exercises, are the one
simplification: they are emitted as a single `\uXXXX` of the code point). -/
def jsonEscChar (c : Char) : String :=
  if c = Char.ofNat 34 then String.mk [bsChar, Char.ofNat 34]
  else if c = bsChar then String.mk [bsChar, bsChar]
  else if c = Char.ofNat 10 then String.mk [bsChar, Char.ofNat 110]
  else if c = Char.ofNat 9 then String.mk [bsChar, Char.ofNat 116]
  else if c = Char.ofNat 13 then String.mk [bsChar, Char.ofNat 114]
  else if c = Char.ofNat 8 then String.mk [bsChar, Char.ofNat 98]
  else if c = Char.ofNat 12 then String.mk [bsChar, Char.ofNat 102]
  else if 32 ≤ c.toNat ∧ c.toNat < 127 then String.mk [c]
  else String.mk ([bsChar, Char.ofNat 117] ++
    (Nat.toDigits 16 c.toNat).reverse.takeD 4 (Char.ofNat 48) |>.reverse)

/-- `json.dumps` rendering of a JSON string (quoted, escaped). -/
def jsonQuote (s : String) : String :=
  "\"" ++ String.mk (s.toList.flatMap (fun c => (jsonEscChar c).toList)) ++ "\""

mutual

/-- The external codec's `json.dumps(v, separators=(",", ":"))`, as invoked by
`_cypher_literal` for mapping values. -/
def jsonDumps : JVal → String
  | .null => "null"
  | .bool b => if b then "true" else "false"
  | .int n => toString n
  | .str s => jsonQuote s
  | .arr xs => "[" ++ jsonDumpsArr xs ++ "]"
  | .obj kvs => "\x7b" ++ jsonDumpsObj kvs ++ "\x7d"

/-- Comma-joined `json.dumps` of list elements. -/
def jsonDumpsArr : List JVal → String
  | [] => ""
  | [x] => jsonDumps x
  | x :: y :: t => jsonDumps x ++ "," ++ jsonDumpsArr (y :: t)

/-- Comma-joined `json.dumps` of object members with `:` separators. -/
def jsonDumpsObj : List (String × JVal) → String
  | [] => ""
  | [(k, v)] => jsonQuote k ++ ":" ++ jsonDumps v
  | (k, v) :: y :: t => jsonQuote k ++ ":" ++ jsonDumps v ++ "," ++ jsonDumpsObj (y :: t)

end

/-- Expansion of one character under `_cypher_escape_string`.  The source
performs `s.replace("\\", "\\\\").replace("'", "\\'")`; the two sequential
replacements act on disjoint characters (the second pattern `'` is neither
produced by nor part of the first replacement's output at new positions), so
their composition equals this single left-to-right per-character expansion. -/
def escChar (c : Char) : List Char :=
  if c = bsChar then [bsChar, bsChar]
  else if c = sqChar then [bsChar, sqChar]
  else [c]

/-- `_cypher_escape_string`: escape backslash and single quote. -/
def cypher_escape_string (s : String) : String :=
  String.mk (s.toList.flatMap escChar)

/-- String form of one character inside a Python `repr` literal rendered with
quote character `q` (backslash, the quote and common control characters are
escaped; other characters pass through — matching CPython on the printable
range, the only range any claim exercises). -/
def pyReprEsc (q : Char) (c : Char) : String :=
  if c = bsChar then String.mk [bsChar, bsChar]
  else if c = q then String.mk [bsChar, q]
  else if c = Char.ofNat 10 then String.mk [bsChar, Char.ofNat 110]
  else if c = Char.ofNat 13 then String.mk [bsChar, Char.ofNat 114]
  else if c = Char.ofNat 9 then String.mk [bsChar, Char.ofNat 116]
  else String.mk [c]

/-- Python `repr` of a text value: single-quoted, unless the text contains a
single quote and no double quote (then double-quoted), with escaping. -/
def pyReprStr (s : String) : String :=
  let q := if s.toList.contains sqChar ∧ ¬ s.toList.contains (Char.ofNat 34)
           then Char.ofNat 34 else sqChar
  String.mk (q :: s.toList.flatMap (fun c => (pyReprEsc q c).toList) ++ [q])

mutual

/-- Python `repr` on the modelled value domain (used by `str` inside
containers): `None`/`True`/`False`, decimal numbers, quoted text, `[...]`
lists and `{...}` dicts. -/
def pyRepr : JVal → String
  | .null => "None"
  | .bool b => if b then "True" else "False"
  | .int n => toString n
  | .str s => pyReprStr s
  | .arr xs => "[" ++ pyReprArr xs ++ "]"
  | .obj kvs => "\x7b" ++ pyReprObj kvs ++ "\x7d"

/-- Comma-joined `repr` of list elements. -/
def pyReprArr : List JVal → String
  | [] => ""
  | [x] => pyRepr x
  | x :: y :: t => pyRepr x ++ ", " ++ pyReprArr (y :: t)

/-- Comma-joined `repr` of dict members. -/
def pyReprObj : List (String × JVal) → String
  | [] => ""
  | [(k, v)] => pyReprStr k ++ ": " ++ pyRepr v
  | (k, v) :: y :: t => pyReprStr k ++ ": " ++ pyRepr v ++ ", " ++ pyReprObj (y :: t)

end

/-- Python `str(v)` as used for key coercion and f-string interpolation:
identity on text, `repr`-style rendering otherwise. -/
def pyStr : JVal → String
  | .str s => s
  | v => pyRepr v

mutual

/-- `_cypher_literal`: encode a value as a Cypher literal.  The boolean case
is dispatched before the numeric one (in the source via an `isinstance(v,
bool)` check preceding `isinstance(v, (int, float))`; here the variant tags
are disjoint).  Mapping values are stored as escaped JSON text; the
source's `except` fallback around `json.dumps` is unreachable on the
modelled (always serializable) value domain. -/
def cypher_literal : JVal → String
  | .null => "NULL"
  | .bool b => if b then "true" else "false"
  | .int n => toString n
  | .str s => "'" ++ cypher_escape_string s ++ "'"
  | .arr xs => "[" ++ cypher_literal_items xs ++ "]"
  | .obj kvs => "'" ++ cypher_escape_string (jsonDumps (.obj kvs)) ++ "'"

/-- `", ".join` of encoded list elements, as produced for list literals. -/
def cypher_literal_items : List JVal → String
  | [] => ""
  | [x] => cypher_literal x
  | x :: y :: t => cypher_literal x ++ ", " ++ cypher_literal_items (y :: t)

end

/-- Python `str.isalnum` on a string, relative to a per-character
classifier `al` standing for Python's Unicode-aware character test
(letter and number categories).  Like the `json` codec, that classifier is
supplied by the host runtime, not by this module, so the key-guard theorems
are proved for an arbitrary classifier (assuming only what CPython
guarantees, e.g. that the underscore is rejected).  The string test is:
non-empty, and every character accepted. -/
def pyIsAlnum_al (al : Char → Bool) (s : String) : Bool :=
  !s.toList.isEmpty && s.toList.all al

/-- The key guard of `_set_props`, `k.replace("_", "").isalnum()`
(`replace("_", "")` removes every underscore), relative to the character
classifier. -/
def keyAllowed_al (al : Char → Bool) (k : String) : Bool :=
  pyIsAlnum_al al (String.mk (k.toList.filter (fun c => !(c == Char.ofNat 95))))

/-- One `SET` assignment clause as rendered by `_set_props`. -/
def setClause (varName k : String) (v : JVal) : String :=
  "SET " ++ varName ++ "." ++ k ++ " = " ++ cypher_literal v

/-- The `clauses` list built by `_set_props`, relative to the character
classifier: one clause per property whose key is not in `skip` and passes
the guard, in iteration order. -/
def set_props_clauses_al (al : Char → Bool) (varName : String) :
    PyDict → List String → List String
  | [], _ => []
  | (k, v) :: t, skip =>
    if skip.contains k then set_props_clauses_al al varName t skip
    else if keyAllowed_al al k then
      setClause varName k v :: set_props_clauses_al al varName t skip
    else set_props_clauses_al al varName t skip

/-- `str.isalnum` instantiated at the ASCII fragment of the classifier,
used to run the pipeline on concrete inputs: every key the concrete
scenario claims exercise is ASCII, where `Char.isAlphanum` coincides with
Python's classifier (outside ASCII, Python's accepts more — the key-guard
claim is therefore settled by the classifier-generic theorem, not by this
instance). -/
def pyIsAlnum : String → Bool := pyIsAlnum_al Char.isAlphanum

/-- The concrete key-guard instance for executable scenarios. -/
def keyAllowed : String → Bool := keyAllowed_al Char.isAlphanum

/-- The concrete clause-list instance for executable scenarios. -/
def set_props_clauses (varName : String) (props : PyDict)
    (skip : List String) : List String :=
  set_props_clauses_al Char.isAlphanum varName props skip

/-- `_set_props`: newline-joined assignment clauses (`skip` defaults to the
empty set at both call sites in the source). -/
def set_props (varName : String) (props : PyDict) (skip : List String) : String :=
  String.intercalate "\n" (set_props_clauses varName props skip)

/-- A raw Kafka message as received by `_as_obj`: Python `None`, a byte
payload (represented by the result of its UTF-8 decoding, `none` modelling a
`UnicodeDecodeError`), text, or an already-structured value. -/
inductive Raw where
  | pynone
  | pybytes (decoded : Option String)
  | pystr (s : String)
  | pyval (v : JVal)

/-- The `isinstance(message, str)` branch of `_as_obj`: `json.loads` the
text, catching parse errors.  A document parsing to JSON `null` is the
Python object `None`, i.e. the same `none` as a failure. -/
def parsedObj (loads : String → Option JVal) (s : String) : Option JVal :=
  match loads s with
  | none => none
  | some .null => none
  | some v => some v

/-- `_as_obj`: normalize a raw message to a structured value or `None`.
Note that the text branch returns whatever `json.loads` produced — including
non-mapping documents — while a pre-decoded non-mapping value falls through
to the final `return None`. -/
def as_obj (loads : String → Option JVal) : Raw → Option JVal
  | .pynone => none
  | .pybytes none => none
  | .pybytes (some s) => parsedObj loads s
  | .pystr s => parsedObj loads s
  | .pyval (.str s) => parsedObj loads s
  | .pyval .null => none
  | .pyval (.obj kvs) => some (.obj kvs)
  | .pyval _ => none

/-- Whether a list element equals the Python string `"payload"` (the
comparison performed by `"payload" in obj` when `obj` is a list). -/
def isPayloadStr : JVal → Bool
  | .str s => s = "payload"
  | _ => false

/-- Substring test over characters, modelling Python's `needle in haystack`
on text. -/
def strContainsSub (hay needle : String) : Bool :=
  go hay.toList
where
  go : List Char → Bool
    | [] => needle.toList.isEmpty
    | c :: cs => needle.toList.isPrefixOf (c :: cs) || go cs

/-- `_payload` restricted to dict input: unwrap a `payload` member when it is
itself a dict, else keep the envelope. -/
def payloadOf (env : PyDict) : PyDict :=
  match dlookup env "payload" with
  | some (.obj inner) => inner
  | _ => env

/-- `_payload` on an arbitrary `_as_obj` result.  `"payload" in obj` raises
`TypeError` on non-container values; on a list it is element membership and
a hit leads to `obj["payload"]`, a `TypeError`; on text it is a substring
test and a hit leads to a `TypeError` the same way. -/
def payload : JVal → Except PyErr JVal
  | .obj env => .ok (.obj (payloadOf env))
  | .arr xs => if xs.any isPayloadStr then .error .typeError else .ok (.arr xs)
  | .str s => if strContainsSub s "payload" then .error .typeError else .ok (.str s)
  | .null => .error .typeError
  | .bool _ => .error .typeError
  | .int _ => .error .typeError

/-- The row-selection expression shared by both builders:
`after if isinstance(after, dict) else before if isinstance(before, dict)
else None`. -/
def extract_row (env : PyDict) : Option PyDict :=
  match dlookup env "after" with
  | some (.obj a) => some a
  | _ =>
    match dlookup env "before" with
    | some (.obj b) => some b
    | _ => none

/-- Whether a `dict.get` result is a dict (`isinstance(x, dict)`). -/
def isObjO : Option JVal → Bool
  | some (.obj _) => true
  | _ => false

/-- `data = row.get("data") or {}` followed by the guarded
`json.loads(data)` when the value is text (parse failure yields `{}`; a
non-text, non-dict value is simply carried through and later ignored by the
`isinstance(data, dict)` overlay guard). -/
def resolve_data (loads : String → Option JVal) (dv : Option JVal) : JVal :=
  let d0 := match dv with
            | some v => if jTruthy v then v else JVal.obj []
            | none => JVal.obj []
  match d0 with
  | .str s =>
    match loads s with
    | some v => v
    | none => .obj []
  | v => v

/-- One step of the `for k in (...): if k in row: props[k] = row.get(k)`
copy of known scalar fields. -/
def knownStep (row : PyDict) (acc : PyDict) (k : String) : PyDict :=
  match dlookup row k with
  | some v => dset acc k v
  | none => acc

/-- The flattening overlay `for k, v in data.items(): props[k] = v`,
guarded by `isinstance(data, dict)`. -/
def overlay (base : PyDict) : JVal → PyDict
  | .obj kvs => kvs.foldl (fun acc kv => dset acc kv.1 kv.2) base
  | _ => base

/-- `props[k]` on a dict known to contain `k` (the builders only index
`props` at keys they have just set, so the default is never reached). -/
def pget (d : PyDict) (k : String) : JVal :=
  (dlookup d k).getD JVal.null

/-- Known scalar entity fields copied from the row into the property map. -/
def entityKnownFields : List String :=
  ["version", "source_count", "created_at", "updated_at", "deleted_at"]

/-- Known provenance/timestamp relationship fields copied from the row. -/
def relKnownFields : List String :=
  ["source_plan_id", "source_execution_id", "created_at", "updated_at", "deleted_at"]

/-- Required-field validation of `_build_entity_cypher`:
`not entity_id or not tenant_id or not entity_type` negated. -/
def entityRequired (row : PyDict) : Bool :=
  truthyO (dlookup row "id") && truthyO (dlookup row "tenant_id") &&
    truthyO (dlookup row "entity_type")

/-- Required-field validation of `_build_relationship_cypher`. -/
def relRequired (row : PyDict) : Bool :=
  truthyO (dlookup row "tenant_id") && truthyO (dlookup row "relationship_type") &&
    truthyO (dlookup row "id") && truthyO (dlookup row "from_merged_entity_id") &&
    truthyO (dlookup row "to_merged_entity_id") && truthyO (dlookup row "from_entity_type") &&
    truthyO (dlookup row "to_entity_type")

/-- The entity property map: `id`, `tenant_id`, `entity_type` coerced to
text, then known scalar fields present in the row, then the `data` overlay. -/
def entity_props (loads : String → Option JVal) (row : PyDict)
    (eid tid ety : JVal) : PyDict :=
  let props0 : PyDict :=
    [("id", .str (pyStr eid)), ("tenant_id", .str (pyStr tid)),
     ("entity_type", .str (pyStr ety))]
  let props1 := entityKnownFields.foldl (knownStep row) props0
  overlay props1 (resolve_data loads (dlookup row "data"))

/-- The `MERGE (e:...)` line of the entity statement (the node key literals
are read back from the property map, i.e. after the `data` overlay). -/
def entity_merge_line (label : String) (idv tidv : JVal) : String :=
  "MERGE (e:" ++ label ++ " \x7bid: " ++ cypher_literal idv ++
    ", tenant_id: " ++ cypher_literal tidv ++ "\x7d)"

/-- The stripped entity f-string: merge line, `SET` clauses, `RETURN e;`. -/
def entity_stmt (label : String) (props : PyDict) : String :=
  entity_merge_line label (pget props "id") (pget props "tenant_id") ++ "\n" ++
    set_props "e" props [] ++ "\nRETURN e;"

/-- `_build_entity_cypher` after row extraction: validate required fields,
build the property map and render the statement. -/
def entity_core (loads : String → Option JVal) (row : PyDict) : Option String :=
  match dlookup row "id", dlookup row "tenant_id", dlookup row "entity_type" with
  | some eid, some tid, some ety =>
    if jTruthy eid && jTruthy tid && jTruthy ety then
      some (entity_stmt (pyStr ety) (entity_props loads row eid tid ety))
    else none
  | _, _, _ => none

/-- The relationship property map: `id`, `tenant_id` coerced to text, known
provenance fields present in the row, then the `data` overlay. -/
def rel_props (loads : String → Option JVal) (row : PyDict)
    (rid tid : JVal) : PyDict :=
  let props0 : PyDict := [("id", .str (pyStr rid)), ("tenant_id", .str (pyStr tid))]
  let props1 := relKnownFields.foldl (knownStep row) props0
  overlay props1 (resolve_data loads (dlookup row "data"))

/-- The `MERGE (a:...)` endpoint line: label and keys interpolated from the
row's `from_entity_type`, `str(from_merged_entity_id)`, `str(tenant_id)`. -/
def merge_a_line (fromType fromId tid : String) : String :=
  "MERGE (a:" ++ fromType ++ " \x7bid: " ++ cypher_literal (.str fromId) ++
    ", tenant_id: " ++ cypher_literal (.str tid) ++ "\x7d)"

/-- The `MERGE (b:...)` endpoint line. -/
def merge_b_line (toType toId tid : String) : String :=
  "MERGE (b:" ++ toType ++ " \x7bid: " ++ cypher_literal (.str toId) ++
    ", tenant_id: " ++ cypher_literal (.str tid) ++ "\x7d)"

/-- The `MERGE (a)-[r:...]->(b)` edge line (key literals read back from the
property map, i.e. after the `data` overlay). -/
def merge_edge_line (relType : String) (idv tidv : JVal) : String :=
  "MERGE (a)-[r:" ++ relType ++ " \x7bid: " ++ cypher_literal idv ++
    ", tenant_id: " ++ cypher_literal tidv ++ "\x7d]->(b)"

/-- The stripped relationship f-string. -/
def rel_stmt (fromType toType relType fromId toId tid : String)
    (props : PyDict) : String :=
  merge_a_line fromType fromId tid ++ "\n" ++
    merge_b_line toType toId tid ++ "\n" ++
    merge_edge_line relType (pget props "id") (pget props "tenant_id") ++ "\n" ++
    set_props "r" props [] ++ "\nRETURN r;"

/-- `_build_relationship_cypher` after row extraction. -/
def rel_core (loads : String → Option JVal) (row : PyDict) : Option String :=
  match dlookup row "tenant_id", dlookup row "relationship_type", dlookup row "id",
        dlookup row "from_merged_entity_id", dlookup row "to_merged_entity_id",
        dlookup row "from_entity_type", dlookup row "to_entity_type" with
  | some tid, some rty, some rid, some fid, some toid, some fty, some tty =>
    if jTruthy tid && jTruthy rty && jTruthy rid && jTruthy fid && jTruthy toid &&
        jTruthy fty && jTruthy tty then
      some (rel_stmt (pyStr fty) (pyStr tty) (pyStr rty) (pyStr fid) (pyStr toid)
        (pyStr tid) (rel_props loads row rid tid))
    else none
  | _, _, _, _, _, _, _ => none

/-- The decode/unwrap/extract steps shared verbatim by both builders: apply
`_payload` (which may raise), require a dict (`p.get` raises
`AttributeError` on text or lists that `_payload` passed through), extract
the row, and hand it to the per-pipeline core. -/
def build_from_obj (core : PyDict → Option String) (obj : JVal) :
    Except PyErr (Option String) :=
  match payload obj with
  | .error e => .error e
  | .ok (.obj env) =>
    match extract_row env with
    | some row => .ok (core row)
    | none => .ok none
  | .ok _ => .error .attributeError

/-- `_build_entity_cypher` on a raw message. -/
def build_entity_cypher (loads : String → Option JVal) (msg : Raw) :
    Except PyErr (Option String) :=
  match as_obj loads msg with
  | some obj => build_from_obj (entity_core loads) obj
  | none => .ok none

/-- `_build_relationship_cypher` on a raw message. -/
def build_relationship_cypher (loads : String → Option JVal) (msg : Raw) :
    Except PyErr (Option String) :=
  match as_obj loads msg with
  | some obj => build_from_obj (rel_core loads) obj
  | none => .ok none

/-- A row wrapped in an `after` snapshot envelope, handed over as an
already-structured message. -/
def wrapAfter (row : PyDict) : Raw :=
  .pyval (.obj [("after", .obj row)])

/-- A codec stub for scenarios whose inputs never reach `json.loads`. -/
def noLoads : String → Option JVal := fun _ => none

/-! ### The reference grammar for single-quoted Cypher string literals

Inside a single-quoted literal the body grammar admits an escaped backslash
`\\`, an escaped quote `\'`, and any other character verbatim; an unescaped
single quote terminates the literal and an unescaped trailing backslash is
ill-formed.  `unescapeChars` decodes a body under that grammar. -/

mutual

/-- Decode the body of a single-quoted literal: `\\` → backslash, `\'` →
quote, a raw quote or dangling/unknown escape is rejected. -/
def unescapeChars : List Char → Option (List Char)
  | [] => some []
  | c :: t =>
    if c = bsChar then unescapeEsc t
    else if c = sqChar then none
    else (unescapeChars t).map (c :: ·)

/-- Decode what follows a backslash: only the two escapable characters. -/
def unescapeEsc : List Char → Option (List Char)
  | [] => none
  | c2 :: t2 =>
    if c2 = bsChar ∨ c2 = sqChar then (unescapeChars t2).map (c2 :: ·) else none

end

/-- Decode a literal body given as text. -/
def unescape_literal_body (s : String) : Option String :=
  (unescapeChars s.toList).map String.mk

/-- Decoding inverts the per-character escaping of `_cypher_escape_string`. -/
theorem unescapeChars_escChar (l : List Char) :
    unescapeChars (l.flatMap escChar) = some l := by
  induction l with
  | nil => rfl
  | cons c t ih =>
    by_cases h1 : c = bsChar
    · simp [escChar, h1, unescapeChars, unescapeEsc, ih]
    · by_cases h2 : c = sqChar
      · simp [escChar, h1, h2, unescapeChars, unescapeEsc, ih]
      · simp [escChar, h1, h2, unescapeChars, unescapeEsc, ih]

/-- C7: for every text value (in particular every one containing backslash
or single-quote characters), `_cypher_literal` renders the single-quoted
escaped literal, and decoding the literal's body under the statement grammar
yields back exactly the original text. -/
theorem C7_literal_round_trip (s : String) :
    cypher_literal (.str s) = "'" ++ cypher_escape_string s ++ "'" ∧
    unescape_literal_body (cypher_escape_string s) = some s := by
  refine ⟨rfl, ?_⟩
  obtain ⟨l⟩ := s
  show (unescapeChars (String.mk (l.flatMap escChar)).data).map String.mk = some (String.mk l)
  rw [show (String.mk (l.flatMap escChar)).data = l.flatMap escChar from rfl,
    unescapeChars_escChar, Option.map_some']

/-- C7 witness: the round-trip evaluated on a text containing both special
characters.  The source text is `a'b\c`; its literal is `'a\'b\\c'`. -/
theorem C7_literal_round_trip_witness :
    cypher_literal (.str "a'b\x5cc") = "'" ++ cypher_escape_string "a'b\x5cc" ++ "'" ∧
    unescape_literal_body (cypher_escape_string "a'b\x5cc") = some "a'b\x5cc" :=
  C7_literal_round_trip "a'b\x5cc"

/-- Removing underscores commutes with the character test: every remaining
character is accepted iff every original character is accepted or an
underscore. -/
theorem filter_underscore_all (al : Char → Bool) (l : List Char) :
    (l.filter (fun c => !(c == Char.ofNat 95))).all al =
      l.all (fun c => al c || c == Char.ofNat 95) := by
  induction l with
  | nil => rfl
  | cons c t ih =>
    by_cases h : c = Char.ofNat 95
    · simp [h, ih]
    · have hb : (c == Char.ofNat 95) = false := beq_eq_false_iff_ne.mpr h
      simp [hb, ih]

/-- For a key of accepted-or-underscore characters, the underscore-stripped
key is non-empty iff some character is accepted (given that the classifier
rejects the underscore, as Python's `str.isalnum` does). -/
theorem filter_underscore_nonempty (al : Char → Bool)
    (hal : al (Char.ofNat 95) = false) (l : List Char)
    (hall : ∀ c ∈ l, al c = true ∨ c = Char.ofNat 95) :
    (!(l.filter (fun c => !(c == Char.ofNat 95))).isEmpty) = l.any al := by
  induction l with
  | nil => rfl
  | cons c t ih =>
    by_cases h : c = Char.ofNat 95
    · simp [h, hal, ih (fun d hd => hall d (List.mem_cons_of_mem _ hd))]
    · have hc : al c = true := by
        rcases hall c (List.mem_cons_self _ _) with h1 | h1
        · exact h1
        · exact absurd h1 h
      simp [h, hc]

/-- Characterization of the `_set_props` key guard
`k.replace("_", "").isalnum()` for any character classifier rejecting the
underscore: it accepts exactly the keys all of whose characters are
accepted or underscores, with at least one accepted among them. -/
theorem keyAllowed_al_iff (al : Char → Bool)
    (hal : al (Char.ofNat 95) = false) (k : String) :
    keyAllowed_al al k = true ↔
      ((∀ c ∈ k.toList, al c = true ∨ c = Char.ofNat 95) ∧
        ∃ c ∈ k.toList, al c = true) := by
  unfold keyAllowed_al pyIsAlnum_al
  rw [show (String.mk (k.toList.filter (fun c => !(c == Char.ofNat 95)))).toList
        = k.toList.filter (fun c => !(c == Char.ofNat 95)) from rfl]
  constructor
  · intro h
    rw [Bool.and_eq_true] at h
    have hall : ∀ c ∈ k.toList, al c = true ∨ c = Char.ofNat 95 := by
      intro c hc
      by_cases h95 : c = Char.ofNat 95
      · exact Or.inr h95
      · refine Or.inl ?_
        have hmem : c ∈ k.toList.filter (fun c => !(c == Char.ofNat 95)) :=
          List.mem_filter.mpr ⟨hc, by simp [h95]⟩
        exact List.all_eq_true.mp h.2 c hmem
    refine ⟨hall, ?_⟩
    have hne := h.1
    rw [filter_underscore_nonempty al hal _ hall] at hne
    obtain ⟨c, hc, hcal⟩ := List.any_eq_true.mp hne
    exact ⟨c, hc, hcal⟩
  · rintro ⟨hall, c, hc, hcal⟩
    rw [Bool.and_eq_true]
    refine ⟨?_, ?_⟩
    · rw [filter_underscore_nonempty al hal _ hall]
      exact List.any_eq_true.mpr ⟨c, hc, hcal⟩
    · rw [filter_underscore_all]
      refine List.all_eq_true.mpr (fun d hd => ?_)
      rcases hall d hd with h1 | h1
      · simp [h1]
      · simp [h1]

/-- C6 counterexample: the key `"_"` is composed solely of letters, digits
and underscores, yet `_set_props` emits no clause for it (the guard strips
underscores first and `"".isalnum()` is false in Python). -/
theorem C6_key_guard_counterexample :
    ("_").toList.all (fun c => c.isAlphanum || c == Char.ofNat 95) = true ∧
    set_props_clauses "n" [("_", JVal.int 1)] [] = [] := by
  refine ⟨by decide, rfl⟩

/-- C6 (amended): for every character classifier rejecting the underscore —
Python's Unicode-aware `str.isalnum` is one — every property map, exclusion
set and key: `_set_props` emits exactly one assignment clause per
non-excluded property whose key passes the guard, in iteration order, and
the guard accepts a key iff all its characters are letters, digits or
underscores AND at least one is a letter or digit (so empty and
all-underscore keys are silently skipped too; all failures are silent
skips, never errors).  The first conjunct records that the pipeline's
concrete clause list is the instance of the generic one at the ASCII
classifier. -/
theorem C6_set_props_key_guard (al : Char → Bool)
    (hal : al (Char.ofNat 95) = false) (varName : String) (props : PyDict)
    (skip : List String) (k : String) :
    set_props_clauses varName props skip =
      set_props_clauses_al Char.isAlphanum varName props skip ∧
    set_props_clauses_al al varName props skip =
      (props.filter (fun kv => !(skip.contains kv.1) && keyAllowed_al al kv.1)).map
        (fun kv => setClause varName kv.1 kv.2) ∧
    (keyAllowed_al al k = true ↔
      ((∀ c ∈ k.toList, al c = true ∨ c = Char.ofNat 95) ∧
        ∃ c ∈ k.toList, al c = true)) := by
  refine ⟨rfl, ?_, keyAllowed_al_iff al hal k⟩
  induction props with
  | nil => rfl
  | cons kv t ih =>
    obtain ⟨k1, v⟩ := kv
    by_cases hs : k1 ∈ skip
    · simp [set_props_clauses_al, hs, ih]
    · by_cases ha : keyAllowed_al al k1
      · simp [set_props_clauses_al, hs, ha, ih]
      · simp [set_props_clauses_al, hs, ha, ih]

/-- C6 witness: the guard theorem applied at the ASCII classifier (which
rejects the underscore), a mixed-key property map and the key `"ok_key"`. -/
theorem C6_set_props_key_guard_witness :
    set_props_clauses "n" [("ok_key", JVal.int 1), ("bad key", JVal.int 2)] [] =
      set_props_clauses_al Char.isAlphanum "n"
        [("ok_key", JVal.int 1), ("bad key", JVal.int 2)] [] ∧
    set_props_clauses_al Char.isAlphanum "n"
        [("ok_key", JVal.int 1), ("bad key", JVal.int 2)] [] =
      (([("ok_key", JVal.int 1), ("bad key", JVal.int 2)] : PyDict).filter
        (fun kv => !(([] : List String).contains kv.1) &&
          keyAllowed_al Char.isAlphanum kv.1)).map
        (fun kv => setClause "n" kv.1 kv.2) ∧
    (keyAllowed_al Char.isAlphanum "ok_key" = true ↔
      ((∀ c ∈ ("ok_key").toList, Char.isAlphanum c = true ∨ c = Char.ofNat 95) ∧
        ∃ c ∈ ("ok_key").toList, Char.isAlphanum c = true)) :=
  C6_set_props_key_guard Char.isAlphanum (by decide) "n"
    [("ok_key", JVal.int 1), ("bad key", JVal.int 2)] [] "ok_key"

/-! ### Association-list (Python dict) lemmas -/

/-- After `d[k] = v`, looking up `k` yields `v`. -/
theorem dlookup_dset_self (d : PyDict) (k : String) (v : JVal) :
    dlookup (dset d k v) k = some v := by
  induction d with
  | nil => simp [dset, dlookup]
  | cons kv t ih =>
    obtain ⟨k1, v1⟩ := kv
    by_cases h : k1 = k
    · simp [dset, dlookup, h]
    · simp [dset, dlookup, h, ih]

/-- `d[k0] = v` does not change the binding of any other key. -/
theorem dlookup_dset_ne (d : PyDict) (k0 k : String) (v : JVal) (h : k ≠ k0) :
    dlookup (dset d k0 v) k = dlookup d k := by
  induction d with
  | nil => simp [dset, dlookup, Ne.symm h]
  | cons kv t ih =>
    obtain ⟨k1, v1⟩ := kv
    by_cases h1 : k1 = k0
    · subst h1
      simp [dset, dlookup, Ne.symm h]
    · simp only [dset, if_neg h1, dlookup]
      by_cases h2 : k1 = k
      · simp [h2]
      · simp [h2, ih]

/-- Folding `d[k] = v` updates over pairs none of whose keys is `k` leaves
the binding of `k` unchanged. -/
theorem foldl_dset_not_mem (kvs : List (String × JVal)) (base : PyDict) (k : String)
    (h : ∀ kv ∈ kvs, kv.1 ≠ k) :
    dlookup (kvs.foldl (fun acc kv => dset acc kv.1 kv.2) base) k = dlookup base k := by
  induction kvs generalizing base with
  | nil => rfl
  | cons kv t ih =>
    rw [List.foldl_cons, ih _ (fun x hx => h x (List.mem_cons_of_mem _ hx)),
      dlookup_dset_ne _ _ _ _ (fun he => h kv (List.mem_cons_self _ _) he.symm)]

/-- Overlaying a dict with pairwise-distinct keys onto any base binds each
of its keys to its (unique) value. -/
theorem overlay_lookup_of_mem (kvs : List (String × JVal)) (base : PyDict)
    (k : String) (v : JVal) (hnd : (kvs.map Prod.fst).Nodup)
    (hl : dlookup kvs k = some v) :
    dlookup (kvs.foldl (fun acc kv => dset acc kv.1 kv.2) base) k = some v := by
  induction kvs generalizing base with
  | nil => cases hl
  | cons kv t ih =>
    obtain ⟨k1, v1⟩ := kv
    rw [List.map_cons, List.nodup_cons] at hnd
    by_cases h : k1 = k
    · subst h
      rw [dlookup, if_pos rfl] at hl
      cases hl
      rw [List.foldl_cons,
        foldl_dset_not_mem _ _ _
          (fun x hx he => hnd.1 (by rw [← he]; exact List.mem_map.mpr ⟨x, hx, rfl⟩)),
        dlookup_dset_self]
    · rw [dlookup, if_neg h] at hl
      rw [List.foldl_cons]
      exact ih _ hnd.2 hl


/-- The known-field copy loop only depends on the row through the lookups
of the listed keys. -/
theorem knownFold_congr (row1 row2 : PyDict) (keys : List String) (acc : PyDict)
    (h : ∀ k ∈ keys, dlookup row1 k = dlookup row2 k) :
    keys.foldl (knownStep row1) acc = keys.foldl (knownStep row2) acc := by
  induction keys generalizing acc with
  | nil => rfl
  | cons k0 t ih =>
    rw [List.foldl_cons, List.foldl_cons,
      show knownStep row1 acc k0 = knownStep row2 acc k0 from by
        unfold knownStep; rw [h k0 (List.mem_cons_self _ _)]]
    exact ih _ (fun x hx => h x (List.mem_cons_of_mem _ hx))

/-- On an `after`-wrapped structured message, `_build_entity_cypher` reaches
the post-extraction core with exactly the wrapped row. -/
theorem build_entity_wrapAfter (loads : String → Option JVal) (row : PyDict) :
    build_entity_cypher loads (wrapAfter row) = .ok (entity_core loads row) := rfl

/-- On an `after`-wrapped structured message, `_build_relationship_cypher`
reaches the post-extraction core with exactly the wrapped row. -/
theorem build_rel_wrapAfter (loads : String → Option JVal) (row : PyDict) :
    build_relationship_cypher loads (wrapAfter row) = .ok (rel_core loads row) := rfl

/-- The entity core yields a statement exactly when the three required
fields are present and truthy. -/
theorem entity_core_isSome_iff (loads : String → Option JVal) (row : PyDict) :
    (∃ s, entity_core loads row = some s) ↔ entityRequired row = true := by
  unfold entity_core entityRequired
  cases h1 : dlookup row "id" with
  | none => simp [truthyO]
  | some eid =>
    cases h2 : dlookup row "tenant_id" with
    | none => simp [truthyO]
    | some tid =>
      cases h3 : dlookup row "entity_type" with
      | none => simp [truthyO]
      | some ety =>
        by_cases hc : jTruthy eid && jTruthy tid && jTruthy ety <;>
          simp [truthyO, hc]

/-- The relationship core yields a statement exactly when the seven required
fields are present and truthy. -/
theorem rel_core_isSome_iff (loads : String → Option JVal) (row : PyDict) :
    (∃ s, rel_core loads row = some s) ↔ relRequired row = true := by
  unfold rel_core relRequired
  cases h1 : dlookup row "tenant_id" <;>
    cases h2 : dlookup row "relationship_type" <;>
    cases h3 : dlookup row "id" <;>
    cases h4 : dlookup row "from_merged_entity_id" <;>
    cases h5 : dlookup row "to_merged_entity_id" <;>
    cases h6 : dlookup row "from_entity_type" <;>
    cases h7 : dlookup row "to_entity_type" <;>
    simp [truthyO]

/-- C1 (refuted; code bug): the raw text message `"5"` parses to the JSON
number `5`, `_as_obj` returns it unchecked (despite its `Optional[Dict]`
annotation), and `_payload` evaluates `"payload" in 5`, raising `TypeError`
out of both builders — not the claimed silent `null`.  The codec argument
models `json.loads("5") == 5`. -/
theorem C1_exception_escapes_on_nonmapping_json :
    build_entity_cypher (fun s => if s = "5" then some (.int 5) else none)
        (.pystr "5") = .error .typeError ∧
    build_relationship_cypher (fun s => if s = "5" then some (.int 5) else none)
        (.pystr "5") = .error .typeError :=
  ⟨rfl, rfl⟩

/-- C2: the entity scenario row wrapped in an `after` snapshot produces the
statement that merges a `Person` node keyed by `id = 'e1'`,
`tenant_id = 't1'` and sets (among the row's own keys) `name = 'Ada'`,
regardless of the codec (the quantification over `loads` is vacuous: no
text is parsed on this input). -/
theorem C2_entity_scenario (loads : String → Option JVal) :
    build_entity_cypher loads (wrapAfter
      [("id", .str "e1"), ("tenant_id", .str "t1"), ("entity_type", .str "Person"),
       ("data", .obj [("name", .str "Ada")])]) =
    .ok (some ("MERGE (e:Person \x7bid: 'e1', tenant_id: 't1'\x7d)\n" ++
      "SET e.id = 'e1'\nSET e.tenant_id = 't1'\n" ++
      "SET e.entity_type = 'Person'\nSET e.name = 'Ada'\nRETURN e;")) := rfl

/-- C8: the relationship scenario row wrapped in an `after` snapshot merges
both `Person` endpoints keyed by `(id, tenant_id)` and a `KNOWS` edge keyed
by `(id = 'r1', tenant_id = 't1')`. -/
theorem C8_relationship_scenario (loads : String → Option JVal) :
    build_relationship_cypher loads (wrapAfter
      [("tenant_id", .str "t1"), ("relationship_type", .str "KNOWS"),
       ("id", .str "r1"), ("from_merged_entity_id", .str "e1"),
       ("to_merged_entity_id", .str "e2"), ("from_entity_type", .str "Person"),
       ("to_entity_type", .str "Person")]) =
    .ok (some ("MERGE (a:Person \x7bid: 'e1', tenant_id: 't1'\x7d)\n" ++
      "MERGE (b:Person \x7bid: 'e2', tenant_id: 't1'\x7d)\n" ++
      "MERGE (a)-[r:KNOWS \x7bid: 'r1', tenant_id: 't1'\x7d]->(b)\n" ++
      "SET r.id = 'r1'\nSET r.tenant_id = 't1'\nRETURN r;")) := rfl

/-- C3: row selection — an envelope whose `after` is a dict selects `after`
(whatever `before` holds); an envelope whose `after` is absent or not a dict
and whose `before` is a dict selects `before`; and when the effective
envelope yields no row, both builders return `None`. -/
theorem C3_row_selection :
    (∀ (env a b : PyDict), dlookup env "after" = some (.obj a) →
      dlookup env "before" = some (.obj b) → extract_row env = some a) ∧
    (∀ (env b : PyDict), isObjO (dlookup env "after") = false →
      dlookup env "before" = some (.obj b) → extract_row env = some b) ∧
    (∀ (loads : String → Option JVal) (e : PyDict),
      extract_row (payloadOf e) = none →
      build_entity_cypher loads (.pyval (.obj e)) = .ok none ∧
      build_relationship_cypher loads (.pyval (.obj e)) = .ok none) := by
  refine ⟨?_, ?_, ?_⟩
  · intro env a b hA hB
    unfold extract_row
    rw [hA]
  · intro env b hA hB
    unfold extract_row
    cases h : dlookup env "after" with
    | none => rw [hB]
    | some v =>
      cases v with
      | obj a => rw [h] at hA; exact absurd hA (by simp [isObjO])
      | null => rw [hB]
      | bool x => rw [hB]
      | int x => rw [hB]
      | str x => rw [hB]
      | arr x => rw [hB]
  · intro loads e hrow
    refine ⟨?_, ?_⟩
    · have hb : build_entity_cypher loads (.pyval (.obj e)) =
          (match extract_row (payloadOf e) with
           | some row => Except.ok (entity_core loads row)
           | none => Except.ok none) := rfl
      rw [hb, hrow]
    · have hb : build_relationship_cypher loads (.pyval (.obj e)) =
          (match extract_row (payloadOf e) with
           | some row => Except.ok (rel_core loads row)
           | none => Except.ok none) := rfl
      rw [hb, hrow]

/-- C3 witness: a create/update envelope with both snapshots selects
`after`; a delete-style envelope (`after` null) selects `before`; a
tombstone envelope yields `None` from both builders. -/
theorem C3_row_selection_witness :
    extract_row [("after", .obj [("k", .int 1)]), ("before", .obj [("k", .int 2)])] =
      some [("k", .int 1)] ∧
    extract_row [("after", .null), ("before", .obj [("k", .int 2)])] =
      some [("k", .int 2)] ∧
    build_entity_cypher noLoads (.pyval (.obj [("after", .null), ("op", .str "d")])) =
      .ok none ∧
    build_relationship_cypher noLoads (.pyval (.obj [("after", .null), ("op", .str "d")])) =
      .ok none :=
  ⟨C3_row_selection.1 _ [("k", .int 1)] [("k", .int 2)] rfl rfl,
   C3_row_selection.2.1 _ [("k", .int 2)] rfl rfl,
   (C3_row_selection.2.2 noLoads [("after", JVal.null), ("op", JVal.str "d")] rfl).1,
   (C3_row_selection.2.2 noLoads [("after", JVal.null), ("op", JVal.str "d")] rfl).2⟩

/-- C4: with the effective row extracted from an (optionally
`payload`-wrapped) envelope, `_build_entity_cypher` yields a statement iff
`id`, `tenant_id` and `entity_type` are all present and truthy; if any is
missing or falsy the result is `None`. -/
theorem C4_entity_required_fields (loads : String → Option JVal) (e row : PyDict)
    (hrow : extract_row (payloadOf e) = some row) :
    (∃ s, build_entity_cypher loads (.pyval (.obj e)) = .ok (some s)) ↔
      entityRequired row = true := by
  have hb : build_entity_cypher loads (.pyval (.obj e)) =
      (match extract_row (payloadOf e) with
       | some r => Except.ok (entity_core loads r)
       | none => Except.ok none) := rfl
  rw [hb, hrow]
  simp only [Except.ok.injEq]
  exact entity_core_isSome_iff loads row

/-- C4 witness: a row with the three required fields yields a statement. -/
theorem C4_entity_required_fields_witness :
    ∃ s, build_entity_cypher noLoads (.pyval (.obj
      [("after", .obj [("id", JVal.str "e1"), ("tenant_id", JVal.str "t1"),
        ("entity_type", JVal.str "Person")])])) = .ok (some s) :=
  (C4_entity_required_fields noLoads
    [("after", .obj [("id", JVal.str "e1"), ("tenant_id", JVal.str "t1"),
      ("entity_type", JVal.str "Person")])]
    [("id", JVal.str "e1"), ("tenant_id", JVal.str "t1"),
      ("entity_type", JVal.str "Person")] rfl).mpr rfl

/-- C5: with the effective row extracted, `_build_relationship_cypher`
yields a statement iff all seven required fields are present and truthy; if
any is missing or falsy the result is `None`. -/
theorem C5_relationship_required_fields (loads : String → Option JVal) (e row : PyDict)
    (hrow : extract_row (payloadOf e) = some row) :
    (∃ s, build_relationship_cypher loads (.pyval (.obj e)) = .ok (some s)) ↔
      relRequired row = true := by
  have hb : build_relationship_cypher loads (.pyval (.obj e)) =
      (match extract_row (payloadOf e) with
       | some r => Except.ok (rel_core loads r)
       | none => Except.ok none) := rfl
  rw [hb, hrow]
  simp only [Except.ok.injEq]
  exact rel_core_isSome_iff loads row

/-- C5 witness: a row with the seven required fields yields a statement. -/
theorem C5_relationship_required_fields_witness :
    ∃ s, build_relationship_cypher noLoads (.pyval (.obj
      [("after", .obj [("tenant_id", JVal.str "t1"),
        ("relationship_type", JVal.str "KNOWS"), ("id", JVal.str "r1"),
        ("from_merged_entity_id", JVal.str "e1"),
        ("to_merged_entity_id", JVal.str "e2"),
        ("from_entity_type", JVal.str "Person"),
        ("to_entity_type", JVal.str "Person")])])) = .ok (some s) :=
  (C5_relationship_required_fields noLoads
    [("after", .obj [("tenant_id", JVal.str "t1"),
      ("relationship_type", JVal.str "KNOWS"), ("id", JVal.str "r1"),
      ("from_merged_entity_id", JVal.str "e1"),
      ("to_merged_entity_id", JVal.str "e2"),
      ("from_entity_type", JVal.str "Person"),
      ("to_entity_type", JVal.str "Person")])]
    [("tenant_id", JVal.str "t1"),
      ("relationship_type", JVal.str "KNOWS"), ("id", JVal.str "r1"),
      ("from_merged_entity_id", JVal.str "e1"),
      ("to_merged_entity_id", JVal.str "e2"),
      ("from_entity_type", JVal.str "Person"),
      ("to_entity_type", JVal.str "Person")] rfl).mpr rfl

/-- A `data` value that is text failing to parse resolves to the empty
overlay. -/
theorem resolve_data_parse_fail (loads : String → Option JVal) (s : String)
    (hfail : loads s = none) :
    resolve_data loads (some (.str s)) = .obj [] := by
  unfold resolve_data
  by_cases h : jTruthy (.str s)
  · simp [h, hfail]
  · simp [h]

/-- The entity core depends on the row only through the required-field
lookups, the known-field lookups and the resolved `data` overlay. -/
theorem entity_core_ext (loads : String → Option JVal) (row1 row2 : PyDict)
    (h1 : dlookup row1 "id" = dlookup row2 "id")
    (h2 : dlookup row1 "tenant_id" = dlookup row2 "tenant_id")
    (h3 : dlookup row1 "entity_type" = dlookup row2 "entity_type")
    (hk : ∀ k ∈ entityKnownFields, dlookup row1 k = dlookup row2 k)
    (hd : resolve_data loads (dlookup row1 "data") =
      resolve_data loads (dlookup row2 "data")) :
    entity_core loads row1 = entity_core loads row2 := by
  unfold entity_core
  rw [h1, h2, h3]
  cases dlookup row2 "id" with
  | none => rfl
  | some eid =>
    cases dlookup row2 "tenant_id" with
    | none => rfl
    | some tid =>
      cases dlookup row2 "entity_type" with
      | none => rfl
      | some ety =>
        have hp : entity_props loads row1 eid tid ety =
            entity_props loads row2 eid tid ety := by
          simp only [entity_props]
          rw [knownFold_congr row1 row2 _ _ hk, hd]
        show (if (jTruthy eid && jTruthy tid && jTruthy ety) = true then
            some (entity_stmt (pyStr ety) (entity_props loads row1 eid tid ety))
          else none) =
          (if (jTruthy eid && jTruthy tid && jTruthy ety) = true then
            some (entity_stmt (pyStr ety) (entity_props loads row2 eid tid ety))
          else none)
        rw [hp]

/-- The relationship core depends on the row only through the required-field
lookups, the known-field lookups and the resolved `data` overlay. -/
theorem rel_core_ext (loads : String → Option JVal) (row1 row2 : PyDict)
    (h1 : dlookup row1 "tenant_id" = dlookup row2 "tenant_id")
    (h2 : dlookup row1 "relationship_type" = dlookup row2 "relationship_type")
    (h3 : dlookup row1 "id" = dlookup row2 "id")
    (h4 : dlookup row1 "from_merged_entity_id" = dlookup row2 "from_merged_entity_id")
    (h5 : dlookup row1 "to_merged_entity_id" = dlookup row2 "to_merged_entity_id")
    (h6 : dlookup row1 "from_entity_type" = dlookup row2 "from_entity_type")
    (h7 : dlookup row1 "to_entity_type" = dlookup row2 "to_entity_type")
    (hk : ∀ k ∈ relKnownFields, dlookup row1 k = dlookup row2 k)
    (hd : resolve_data loads (dlookup row1 "data") =
      resolve_data loads (dlookup row2 "data")) :
    rel_core loads row1 = rel_core loads row2 := by
  unfold rel_core
  rw [h1, h2, h3, h4, h5, h6, h7]
  cases dlookup row2 "tenant_id" with
  | none => rfl
  | some tid =>
  cases dlookup row2 "relationship_type" with
  | none => rfl
  | some rty =>
  cases dlookup row2 "id" with
  | none => rfl
  | some rid =>
  cases dlookup row2 "from_merged_entity_id" with
  | none => rfl
  | some fid =>
  cases dlookup row2 "to_merged_entity_id" with
  | none => rfl
  | some toid =>
  cases dlookup row2 "from_entity_type" with
  | none => rfl
  | some fty =>
  cases dlookup row2 "to_entity_type" with
  | none => rfl
  | some tty =>
  have hp : rel_props loads row1 rid tid = rel_props loads row2 rid tid := by
    simp only [rel_props]
    rw [knownFold_congr row1 row2 _ _ hk, hd]
  show (if (jTruthy tid && jTruthy rty && jTruthy rid && jTruthy fid && jTruthy toid &&
        jTruthy fty && jTruthy tty) = true then
      some (rel_stmt (pyStr fty) (pyStr tty) (pyStr rty) (pyStr fid) (pyStr toid)
        (pyStr tid) (rel_props loads row1 rid tid))
    else none) =
    (if (jTruthy tid && jTruthy rty && jTruthy rid && jTruthy fid && jTruthy toid &&
        jTruthy fty && jTruthy tty) = true then
      some (rel_stmt (pyStr fty) (pyStr tty) (pyStr rty) (pyStr fid) (pyStr toid)
        (pyStr tid) (rel_props loads row2 rid tid))
    else none)
  rw [hp]

/-- C9: a row whose `data` is a text blob failing to parse is transformed
exactly as if its `data` were the empty mapping — the known scalar fields
all still apply — and, whenever the required fields validate, a statement is
still produced (by either pipeline): the malformed blob never drops the
message. -/
theorem C9_malformed_data_blob (loads : String → Option JVal) (row : PyDict)
    (s : String) (hdata : dlookup row "data" = some (.str s))
    (hfail : loads s = none) :
    build_entity_cypher loads (wrapAfter row) =
      build_entity_cypher loads (wrapAfter (dset row "data" (.obj []))) ∧
    build_relationship_cypher loads (wrapAfter row) =
      build_relationship_cypher loads (wrapAfter (dset row "data" (.obj []))) ∧
    (entityRequired row = true →
      ∃ st, build_entity_cypher loads (wrapAfter row) = .ok (some st)) ∧
    (relRequired row = true →
      ∃ st, build_relationship_cypher loads (wrapAfter row) = .ok (some st)) := by
  have hne : ∀ k : String, k ≠ "data" →
      dlookup row k = dlookup (dset row "data" (.obj [])) k :=
    fun k hk => (dlookup_dset_ne row "data" k _ hk).symm
  have hd : resolve_data loads (dlookup row "data") =
      resolve_data loads (dlookup (dset row "data" (.obj [])) "data") := by
    rw [hdata, dlookup_dset_self, resolve_data_parse_fail loads s hfail]
    rfl
  refine ⟨?_, ?_, ?_, ?_⟩
  · rw [build_entity_wrapAfter, build_entity_wrapAfter]
    refine congrArg Except.ok (entity_core_ext loads _ _ (hne _ (by decide))
      (hne _ (by decide)) (hne _ (by decide)) (fun k hk => hne k ?_) hd)
    simp only [entityKnownFields, List.mem_cons, List.not_mem_nil, or_false] at hk
    rcases hk with rfl | rfl | rfl | rfl | rfl <;> decide
  · rw [build_rel_wrapAfter, build_rel_wrapAfter]
    refine congrArg Except.ok (rel_core_ext loads _ _ (hne _ (by decide))
      (hne _ (by decide)) (hne _ (by decide)) (hne _ (by decide))
      (hne _ (by decide)) (hne _ (by decide)) (hne _ (by decide))
      (fun k hk => hne k ?_) hd)
    simp only [relKnownFields, List.mem_cons, List.not_mem_nil, or_false] at hk
    rcases hk with rfl | rfl | rfl | rfl | rfl <;> decide
  · intro hreq
    rw [build_entity_wrapAfter]
    obtain ⟨st, hst⟩ := (entity_core_isSome_iff loads row).mpr hreq
    exact ⟨st, by rw [hst]⟩
  · intro hreq
    rw [build_rel_wrapAfter]
    obtain ⟨st, hst⟩ := (rel_core_isSome_iff loads row).mpr hreq
    exact ⟨st, by rw [hst]⟩

/-- C10: when the parsed `data` mapping itself binds `id` (and `tenant_id`),
the overlaid value from `data` — uncoerced — is what lands in the entity
node's MERGE key and in the relationship edge's MERGE key (both are read
from the property map after the overlay), while the relationship endpoint
node keys always use the row's top-level `from_merged_entity_id`,
`to_merged_entity_id` and `tenant_id` coerced to text. -/
theorem C10_data_overlay_reaches_merge_keys :
    (∀ (loads : String → Option JVal) (row : PyDict) (eid tid ety vid vt : JVal)
      (d : List (String × JVal)),
      dlookup row "id" = some eid → jTruthy eid = true →
      dlookup row "tenant_id" = some tid → jTruthy tid = true →
      dlookup row "entity_type" = some ety → jTruthy ety = true →
      dlookup row "data" = some (.obj d) → (d.map Prod.fst).Nodup →
      dlookup d "id" = some vid → dlookup d "tenant_id" = some vt →
      ∃ rest, build_entity_cypher loads (wrapAfter row) =
        .ok (some (entity_merge_line (pyStr ety) vid vt ++ "\n" ++ rest))) ∧
    (∀ (loads : String → Option JVal) (row : PyDict)
      (tid rty rid fid toid fty tty vid vt : JVal) (d : List (String × JVal)),
      dlookup row "tenant_id" = some tid → jTruthy tid = true →
      dlookup row "relationship_type" = some rty → jTruthy rty = true →
      dlookup row "id" = some rid → jTruthy rid = true →
      dlookup row "from_merged_entity_id" = some fid → jTruthy fid = true →
      dlookup row "to_merged_entity_id" = some toid → jTruthy toid = true →
      dlookup row "from_entity_type" = some fty → jTruthy fty = true →
      dlookup row "to_entity_type" = some tty → jTruthy tty = true →
      dlookup row "data" = some (.obj d) → (d.map Prod.fst).Nodup →
      dlookup d "id" = some vid → dlookup d "tenant_id" = some vt →
      ∃ rest, build_relationship_cypher loads (wrapAfter row) =
        .ok (some (merge_a_line (pyStr fty) (pyStr fid) (pyStr tid) ++ "\n" ++
          merge_b_line (pyStr tty) (pyStr toid) (pyStr tid) ++ "\n" ++
          merge_edge_line (pyStr rty) vid vt ++ "\n" ++ rest))) := by
  constructor
  · intro loads row eid tid ety vid vt d hid hteid htid httid hety htety hdata hnd hdi hdt
    have hres : resolve_data loads (dlookup row "data") = .obj d := by
      rw [hdata]
      have hde : d.isEmpty = false := by
        cases d with
        | nil => cases hdi
        | cons a t => rfl
      unfold resolve_data
      simp [jTruthy, hde]
    have hcore : entity_core loads row =
        some (entity_stmt (pyStr ety) (entity_props loads row eid tid ety)) := by
      unfold entity_core
      rw [hid, htid, hety]
      show (if (jTruthy eid && jTruthy tid && jTruthy ety) = true then
          some (entity_stmt (pyStr ety) (entity_props loads row eid tid ety))
        else none) = _
      simp [hteid, httid, htety]
    have hpid : pget (entity_props loads row eid tid ety) "id" = vid := by
      simp only [entity_props]
      rw [hres]
      unfold overlay pget
      rw [overlay_lookup_of_mem d _ "id" vid hnd hdi]
      rfl
    have hpt : pget (entity_props loads row eid tid ety) "tenant_id" = vt := by
      simp only [entity_props]
      rw [hres]
      unfold overlay pget
      rw [overlay_lookup_of_mem d _ "tenant_id" vt hnd hdt]
      rfl
    refine ⟨set_props "e" (entity_props loads row eid tid ety) [] ++ "\nRETURN e;", ?_⟩
    rw [build_entity_wrapAfter, hcore]
    unfold entity_stmt
    rw [hpid, hpt, String.append_assoc]
  · intro loads row tid rty rid fid toid fty tty vid vt d htid httid hrty htrty hid
      hteid hfid htfid htoid httoid hfty htfty htty httty hdata hnd hdi hdt
    have hres : resolve_data loads (dlookup row "data") = .obj d := by
      rw [hdata]
      have hde : d.isEmpty = false := by
        cases d with
        | nil => cases hdi
        | cons a t => rfl
      unfold resolve_data
      simp [jTruthy, hde]
    have hcore : rel_core loads row =
        some (rel_stmt (pyStr fty) (pyStr tty) (pyStr rty) (pyStr fid) (pyStr toid)
          (pyStr tid) (rel_props loads row rid tid)) := by
      unfold rel_core
      rw [htid, hrty, hid, hfid, htoid, hfty, htty]
      show (if (jTruthy tid && jTruthy rty && jTruthy rid && jTruthy fid &&
          jTruthy toid && jTruthy fty && jTruthy tty) = true then
          some (rel_stmt (pyStr fty) (pyStr tty) (pyStr rty) (pyStr fid) (pyStr toid)
            (pyStr tid) (rel_props loads row rid tid))
        else none) = _
      simp [httid, htrty, hteid, htfid, httoid, htfty, httty]
    have hpid : pget (rel_props loads row rid tid) "id" = vid := by
      simp only [rel_props]
      rw [hres]
      unfold overlay pget
      rw [overlay_lookup_of_mem d _ "id" vid hnd hdi]
      rfl
    have hpt : pget (rel_props loads row rid tid) "tenant_id" = vt := by
      simp only [rel_props]
      rw [hres]
      unfold overlay pget
      rw [overlay_lookup_of_mem d _ "tenant_id" vt hnd hdt]
      rfl
    refine ⟨set_props "r" (rel_props loads row rid tid) [] ++ "\nRETURN r;", ?_⟩
    rw [build_rel_wrapAfter, hcore]
    unfold rel_stmt
    rw [hpid, hpt, String.append_assoc]

/-- C10 witness: with `data = {"id": 42, "tenant_id": 7}` the node and edge
MERGE keys carry the uncoerced numbers 42 and 7, while the endpoint node
keys keep the row's text identifiers. -/
theorem C10_data_overlay_reaches_merge_keys_witness :
    (∃ rest, build_entity_cypher noLoads (wrapAfter
      [("id", .str "e1"), ("tenant_id", .str "t1"), ("entity_type", .str "Person"),
       ("data", .obj [("id", .int 42), ("tenant_id", .int 7)])]) =
      .ok (some (entity_merge_line "Person" (.int 42) (.int 7) ++ "\n" ++ rest))) ∧
    (∃ rest, build_relationship_cypher noLoads (wrapAfter
      [("tenant_id", .str "t1"), ("relationship_type", .str "KNOWS"),
       ("id", .str "r1"), ("from_merged_entity_id", .str "e1"),
       ("to_merged_entity_id", .str "e2"), ("from_entity_type", .str "Person"),
       ("to_entity_type", .str "Person"),
       ("data", .obj [("id", .int 42), ("tenant_id", .int 7)])]) =
      .ok (some (merge_a_line "Person" "e1" "t1" ++ "\n" ++
        merge_b_line "Person" "e2" "t1" ++ "\n" ++
        merge_edge_line "KNOWS" (.int 42) (.int 7) ++ "\n" ++ rest))) :=
  ⟨C10_data_overlay_reaches_merge_keys.1 noLoads
      [("id", .str "e1"), ("tenant_id", .str "t1"), ("entity_type", .str "Person"),
       ("data", .obj [("id", .int 42), ("tenant_id", .int 7)])]
      (.str "e1") (.str "t1") (.str "Person") (.int 42) (.int 7)
      [("id", .int 42), ("tenant_id", .int 7)]
      rfl rfl rfl rfl rfl rfl rfl (by decide) rfl rfl,
   C10_data_overlay_reaches_merge_keys.2 noLoads
      [("tenant_id", .str "t1"), ("relationship_type", .str "KNOWS"),
       ("id", .str "r1"), ("from_merged_entity_id", .str "e1"),
       ("to_merged_entity_id", .str "e2"), ("from_entity_type", .str "Person"),
       ("to_entity_type", .str "Person"),
       ("data", .obj [("id", .int 42), ("tenant_id", .int 7)])]
      (.str "t1") (.str "KNOWS") (.str "r1") (.str "e1") (.str "e2")
      (.str "Person") (.str "Person") (.int 42) (.int 7)
      [("id", .int 42), ("tenant_id", .int 7)]
      rfl rfl rfl rfl rfl rfl rfl rfl rfl rfl rfl rfl rfl rfl rfl (by decide) rfl rfl⟩

/-- C9 witness: a row carrying both pipelines' required fields and the
unparseable blob `data = "notjson"` is transformed like the same row with an
empty `data`, and both builders still emit a statement. -/
theorem C9_malformed_data_blob_witness :
    build_entity_cypher noLoads (wrapAfter
      [("id", .str "e1"), ("tenant_id", .str "t1"), ("entity_type", .str "Person"),
       ("relationship_type", .str "KNOWS"), ("from_merged_entity_id", .str "a"),
       ("to_merged_entity_id", .str "b"), ("from_entity_type", .str "P"),
       ("to_entity_type", .str "P"), ("data", .str "notjson")]) =
      build_entity_cypher noLoads (wrapAfter (dset
      [("id", .str "e1"), ("tenant_id", .str "t1"), ("entity_type", .str "Person"),
       ("relationship_type", .str "KNOWS"), ("from_merged_entity_id", .str "a"),
       ("to_merged_entity_id", .str "b"), ("from_entity_type", .str "P"),
       ("to_entity_type", .str "P"), ("data", .str "notjson")] "data" (.obj []))) ∧
    build_relationship_cypher noLoads (wrapAfter
      [("id", .str "e1"), ("tenant_id", .str "t1"), ("entity_type", .str "Person"),
       ("relationship_type", .str "KNOWS"), ("from_merged_entity_id", .str "a"),
       ("to_merged_entity_id", .str "b"), ("from_entity_type", .str "P"),
       ("to_entity_type", .str "P"), ("data", .str "notjson")]) =
      build_relationship_cypher noLoads (wrapAfter (dset
      [("id", .str "e1"), ("tenant_id", .str "t1"), ("entity_type", .str "Person"),
       ("relationship_type", .str "KNOWS"), ("from_merged_entity_id", .str "a"),
       ("to_merged_entity_id", .str "b"), ("from_entity_type", .str "P"),
       ("to_entity_type", .str "P"), ("data", .str "notjson")] "data" (.obj []))) ∧
    (∃ st, build_entity_cypher noLoads (wrapAfter
      [("id", .str "e1"), ("tenant_id", .str "t1"), ("entity_type", .str "Person"),
       ("relationship_type", .str "KNOWS"), ("from_merged_entity_id", .str "a"),
       ("to_merged_entity_id", .str "b"), ("from_entity_type", .str "P"),
       ("to_entity_type", .str "P"), ("data", .str "notjson")]) = .ok (some st)) ∧
    (∃ st, build_relationship_cypher noLoads (wrapAfter
      [("id", .str "e1"), ("tenant_id", .str "t1"), ("entity_type", .str "Person"),
       ("relationship_type", .str "KNOWS"), ("from_merged_entity_id", .str "a"),
       ("to_merged_entity_id", .str "b"), ("from_entity_type", .str "P"),
       ("to_entity_type", .str "P"), ("data", .str "notjson")]) = .ok (some st)) :=
  ⟨(C9_malformed_data_blob noLoads
      [("id", .str "e1"), ("tenant_id", .str "t1"), ("entity_type", .str "Person"),
       ("relationship_type", .str "KNOWS"), ("from_merged_entity_id", .str "a"),
       ("to_merged_entity_id", .str "b"), ("from_entity_type", .str "P"),
       ("to_entity_type", .str "P"), ("data", .str "notjson")] "notjson" rfl rfl).1,
   (C9_malformed_data_blob noLoads
      [("id", .str "e1"), ("tenant_id", .str "t1"), ("entity_type", .str "Person"),
       ("relationship_type", .str "KNOWS"), ("from_merged_entity_id", .str "a"),
       ("to_merged_entity_id", .str "b"), ("from_entity_type", .str "P"),
       ("to_entity_type", .str "P"), ("data", .str "notjson")] "notjson" rfl rfl).2.1,
   (C9_malformed_data_blob noLoads
      [("id", .str "e1"), ("tenant_id", .str "t1"), ("entity_type", .str "Person"),
       ("relationship_type", .str "KNOWS"), ("from_merged_entity_id", .str "a"),
       ("to_merged_entity_id", .str "b"), ("from_entity_type", .str "P"),
       ("to_entity_type", .str "P"), ("data", .str "notjson")] "notjson" rfl rfl).2.2.1 rfl,
   (C9_malformed_data_blob noLoads
      [("id", .str "e1"), ("tenant_id", .str "t1"), ("entity_type", .str "Person"),
       ("relationship_type", .str "KNOWS"), ("from_merged_entity_id", .str "a"),
       ("to_merged_entity_id", .str "b"), ("from_entity_type", .str "P"),
       ("to_entity_type", .str "P"), ("data", .str "notjson")] "notjson" rfl rfl).2.2.2 rfl⟩

end Ivy
